import Mathlib

/-!
Verification of the chat-completion tutorial repository
(`src/OpenAI/1_basic_chatcompletions_example.ipynb`).

The repository is a single notebook: a setup cell assigns four global
configuration fields of the `openai` module, and a request cell performs one
`openai.ChatCompletion.create` call inside `try/except`, printing either the
content of every returned choice (one per line) or the caught exception.

The `create` operation itself lives in the external vendor SDK and the remote
service, not in this repository, so it is modelled from the specification's
description of the abstract operation `complete`.  The two notebook cells are
embedded directly from the source.
-/

namespace AICamp

/-- Message role enum from the data model: system, user or assistant. -/
inductive Role where
  | system
  | user
  | assistant
deriving DecidableEq, Repr

/-- A single conversation message: role plus content string. -/
structure Message where
  role : Role
  content : String
deriving DecidableEq, Repr

/-- Why generation stopped: natural stop, length cap, or stop-sequence match. -/
inductive FinishReason where
  | stop
  | length
  | stop_sequence
deriving DecidableEq, Repr

/-- Generation parameters recognized by the abstract `complete` operation.
Temperature is a rational (the source passes the literal `0.2`). -/
structure GenerationConfig where
  deployment_or_model : String
  temperature : Option ℚ
  max_tokens : Nat
  n : Nat
  stop : Option (List String)
  stream : Bool
deriving DecidableEq, Repr

/-- One independently generated completion among the `n` requested. -/
structure Choice where
  message : Message
  finish_reason : FinishReason
deriving DecidableEq, Repr

/-- Result of a successful non-streaming call: an ordered sequence of choices. -/
structure CompletionResult where
  choices : List Choice
deriving DecidableEq, Repr

/-- The error taxonomy of the specification: transport, auth, invalid request,
rate limit and server-side faults. -/
inductive ErrKind where
  | TransportError
  | AuthError
  | InvalidRequestError
  | RateLimitError
  | ServerError
deriving DecidableEq, Repr

/-- Process-wide configuration of the `openai` module: the four global fields
assigned by the setup cell of the notebook. -/
structure OpenAIState where
  api_type : String
  api_key : String
  api_base : String
  api_version : String
deriving DecidableEq, Repr

/-- Outcome chosen by the remote service when a well-formed, authenticated
request reaches it. -/
inductive RemoteOutcome where
  | transportFail
  | rateLimited
  | serverFault
  | ok
deriving DecidableEq, Repr

/-- The external world of one call: which API keys the service accepts, what
the remote does with an accepted request, the generated content for each
choice index, the chunk sizes used when streaming it, and the finish reason
for each choice. -/
structure Env where
  validKey : String → Bool
  outcome : RemoteOutcome
  oracle : Nat → String
  chunkSizes : Nat → List Nat
  finish : Nat → FinishReason

/-- Validity of a `GenerationConfig` per the specification's constraints:
non-empty `deployment_or_model`, `n ≥ 1`, `max_tokens ≥ 1`, and temperature
in [0, 2] when provided. -/
def validConfig (c : GenerationConfig) : Bool :=
  (!(c.deployment_or_model == "")) && decide (1 ≤ c.n) && decide (1 ≤ c.max_tokens) &&
    (match c.temperature with
     | none => true
     | some t => decide (0 ≤ t) && decide (t ≤ 2))

/-- What one invocation of `complete` produced: the result or error, how many
outbound network calls were made, and the configuration state afterwards. -/
structure CallResult where
  result : Except ErrKind CompletionResult
  networkCalls : Nat
  finalState : OpenAIState
deriving Repr

/-- Modelled from the spec: the abstract non-streaming operation
`complete(messages, config)` of the ChatCompletionClient; the concrete
implementation is `openai.ChatCompletion.create` inside the external vendor
SDK and the remote service, which are not part of this repository.  An empty
`messages` sequence is rejected locally with `InvalidRequestError` and no
network call; otherwise exactly one outbound call is made, which fails with
`AuthError` on an invalid key, `InvalidRequestError` on constraint
violations, the remote's own failure kind otherwise, and on success returns
exactly `config.n` assistant choices.  The configuration state is never
modified. -/
def complete (env : Env) (st : OpenAIState) (messages : List Message)
    (config : GenerationConfig) : CallResult :=
  if messages.isEmpty then
    ⟨.error .InvalidRequestError, 0, st⟩
  else if !(env.validKey st.api_key) then
    ⟨.error .AuthError, 1, st⟩
  else if !(validConfig config) then
    ⟨.error .InvalidRequestError, 1, st⟩
  else
    match env.outcome with
    | .transportFail => ⟨.error .TransportError, 1, st⟩
    | .rateLimited => ⟨.error .RateLimitError, 1, st⟩
    | .serverFault => ⟨.error .ServerError, 1, st⟩
    | .ok =>
        ⟨.ok ⟨(List.range config.n).map (fun i =>
          ⟨⟨.assistant, env.oracle i⟩, env.finish i⟩)⟩, 1, st⟩

/-- Split a character list into successive chunks of the given sizes, with a
final chunk holding the remainder. -/
def splitBySizes : List Nat → List Char → List (List Char)
  | [], s => [s]
  | k :: ks, s => s.take k :: splitBySizes ks (s.drop k)

/-- The increments delivered for one choice in streaming mode, terminated by
the finish reason carried on the final increment. -/
structure StreamChoice where
  increments : List String
  finish_reason : FinishReason
deriving DecidableEq, Repr

/-- Modelled from the spec: the streaming mode of the ChatCompletionClient
(not part of this repository; the tutorial sets `stream = False`).  The same
guards apply as in `complete`; on success each choice's content is delivered
as a finite sequence of partial-content increments, obtained by cutting the
generated text at the environment's chunk boundaries. -/
def completeStream (env : Env) (st : OpenAIState) (messages : List Message)
    (config : GenerationConfig) : Except ErrKind (List StreamChoice) :=
  if messages.isEmpty then
    .error .InvalidRequestError
  else if !(env.validKey st.api_key) then
    .error .AuthError
  else if !(validConfig config) then
    .error .InvalidRequestError
  else
    match env.outcome with
    | .transportFail => .error .TransportError
    | .rateLimited => .error .RateLimitError
    | .serverFault => .error .ServerError
    | .ok =>
        .ok ((List.range config.n).map (fun i =>
          ⟨(splitBySizes (env.chunkSizes i) (env.oracle i).data).map
            (fun l => String.mk l), env.finish i⟩))

/-- Concatenation of a sequence of streamed content increments. -/
def concatIncrements (l : List String) : String :=
  l.foldr (fun a b => a ++ b) ""

/-- The `openai` configuration state produced by the setup cell of the
notebook (the four assignments at the top of the configuration cell). -/
def setupState : OpenAIState :=
  { api_type := "azure"
    api_key := "<your_api_key>"
    api_base := "https://apis.ai.cosmoconsult.com"
    api_version := "2023-07-01-preview" }

/-- The `messages` argument of the notebook's single call. -/
def notebookMessages : List Message :=
  [⟨.system, "You are a helpful assistant."⟩,
   ⟨.user, "Who is Marie Curie?"⟩]

/-- The rational value 0.2 passed as `temperature` in the notebook, written
in lowest terms so that comparisons on it evaluate by kernel reduction. -/
def temp02 : ℚ := ⟨1, 5, by norm_num, by norm_num⟩

/-- The generation parameters of the notebook's single call:
`deployment_id = "gpt-35-turbo"`, `temperature = 0.2`, `n = 1`,
`stop = None`, `max_tokens = 150`, `stream = False`. -/
def notebookConfig : GenerationConfig :=
  { deployment_or_model := "gpt-35-turbo"
    temperature := some temp02
    max_tokens := 150
    n := 1
    stop := none
    stream := false }

/-- Modelled from the spec: the human-readable description of an exception,
as printed by `print(e)` in the notebook's `except` branch. -/
def errorMessage : ErrKind → String
  | .TransportError => "Error communicating with the endpoint"
  | .AuthError => "Access denied due to invalid key"
  | .InvalidRequestError => "Invalid request"
  | .RateLimitError => "Rate limit exceeded"
  | .ServerError => "The server had an error processing your request"

/-- What executing the request cell produced: the printed lines, the
configuration state afterwards, and whether an exception escaped the cell
uncaught. -/
structure CellResult where
  lines : List String
  finalState : OpenAIState
  uncaught : Option ErrKind
deriving Repr

/-- The request/print cell of the notebook: inside `try`, call
`openai.ChatCompletion.create` with the fixed arguments, then print
`choice['message']['content']` for each element of `response['choices']` in
order; `except Exception as e` catches every failure and prints `e`. -/
def runRequestCell (env : Env) (st : OpenAIState) : CellResult :=
  match complete env st notebookMessages notebookConfig with
  | ⟨.ok r, _, st1⟩ => ⟨r.choices.map (fun c => c.message.content), st1, none⟩
  | ⟨.error e, _, st1⟩ => ⟨[errorMessage e], st1, none⟩

/-- A benign environment for concrete evaluation: every key accepted, the
remote succeeds, content "hello" for every choice, streamed in chunks of two
characters. -/
def okEnv : Env :=
  ⟨fun _ => true, .ok, fun _ => "hello", fun _ => [2, 2], fun _ => .stop⟩

/-- An environment whose remote rejects every API key. -/
def badKeyEnv : Env :=
  ⟨fun _ => false, .ok, fun _ => "", fun _ => [], fun _ => .stop⟩

/-! ### Helper lemmas -/

theorem validConfig_set_stream (c : GenerationConfig) (b : Bool) :
    validConfig { c with stream := b } = validConfig c := rfl

theorem temp02_eq : temp02 = 2 / 10 := by
  unfold temp02
  rw [Rat.mk'_eq_divInt]
  norm_num [Rat.divInt_eq_div]

theorem splitBySizes_flatten (ks : List Nat) (s : List Char) :
    (splitBySizes ks s).flatten = s := by
  induction ks generalizing s with
  | nil => simp [splitBySizes]
  | cons k ks ih => simp [splitBySizes, ih]

theorem mk_data_eq (s : String) : String.mk s.data = s := by
  cases s
  rfl

theorem concatIncrements_map_mk (ls : List (List Char)) :
    concatIncrements (ls.map (fun l => String.mk l)) = String.mk ls.flatten := by
  induction ls with
  | nil => rfl
  | cons a ls ih =>
    show String.mk a ++ concatIncrements (ls.map (fun l => String.mk l))
        = String.mk ((a :: ls).flatten)
    rw [ih]
    show String.mk (a ++ ls.flatten) = String.mk ((a :: ls).flatten)
    simp

theorem complete_finalState (env : Env) (st : OpenAIState)
    (messages : List Message) (config : GenerationConfig) :
    (complete env st messages config).finalState = st := by
  unfold complete
  cases messages.isEmpty <;> cases env.validKey st.api_key <;>
    cases validConfig config <;> cases env.outcome <;> rfl

/-! ### Claim theorems -/

/-- Claim C3: calling `complete` with an empty `messages` sequence fails with
`InvalidRequestError`, makes no outbound network call, and leaves the
configuration state unchanged. -/
theorem C3_empty_messages_no_network (env : Env) (st : OpenAIState)
    (config : GenerationConfig) :
    complete env st [] config = ⟨.error .InvalidRequestError, 0, st⟩ := rfl

/-- Claim C6: the connection configuration is read-only: every call of
`complete` leaves it unchanged, and no state is retained across calls — a
second call issued after a first one behaves exactly as if issued from the
initial state. -/
theorem C6_config_read_only_stateless (env : Env) (st : OpenAIState)
    (messages : List Message) (config : GenerationConfig) :
    (complete env st messages config).finalState = st ∧
      ∀ (env2 : Env) (m2 : List Message) (c2 : GenerationConfig),
        complete env2 (complete env st messages config).finalState m2 c2 =
          complete env2 st m2 c2 := by
  refine ⟨complete_finalState env st messages config, fun env2 m2 c2 => ?_⟩
  rw [complete_finalState]

/-- Claim C2: the request cell lets no exception escape; on success it prints
the content of each returned choice, one per line, in order, and on failure
it prints exactly the error's human-readable description. -/
theorem C2_prints_choices_or_error (env : Env) (st : OpenAIState) :
    (runRequestCell env st).uncaught = none ∧
      (runRequestCell env st).lines =
        (match (complete env st notebookMessages notebookConfig).result with
         | .ok r => r.choices.map (fun c => c.message.content)
         | .error e => [errorMessage e]) := by
  unfold runRequestCell
  rcases h : complete env st notebookMessages notebookConfig with ⟨res, k, st1⟩
  cases res <;> simp [h]

/-- Claim C10: executing the request cell from the setup-cell state never
writes the four global configuration fields: afterwards they hold exactly
the values assigned in the setup cell. -/
theorem C10_globals_unchanged (env : Env) :
    (runRequestCell env setupState).finalState.api_type = "azure" ∧
      (runRequestCell env setupState).finalState.api_key = "<your_api_key>" ∧
      (runRequestCell env setupState).finalState.api_base =
        "https://apis.ai.cosmoconsult.com" ∧
      (runRequestCell env setupState).finalState.api_version =
        "2023-07-01-preview" := by
  have h : (runRequestCell env setupState).finalState = setupState := by
    unfold runRequestCell
    rcases h : complete env setupState notebookMessages notebookConfig with ⟨res, k, st1⟩
    have h2 := complete_finalState env setupState notebookMessages notebookConfig
    rw [h] at h2
    cases res <;> simpa using h2
  rw [h]
  exact ⟨rfl, rfl, rfl, rfl⟩

/-- Claim C9: the notebook's single concrete call satisfies every
precondition placed on `complete`: non-empty messages starting with a
system message followed by a user message, non-empty deployment identifier
"gpt-35-turbo", `n = 1 ≥ 1`, `max_tokens = 150 ≥ 1`, and
`temperature = 0.2 ∈ [0, 2]`. -/
theorem C9_notebook_call_valid :
    notebookMessages ≠ [] ∧
      notebookMessages.head? = some ⟨.system, "You are a helpful assistant."⟩ ∧
      notebookMessages.get? 1 = some ⟨.user, "Who is Marie Curie?"⟩ ∧
      notebookConfig.deployment_or_model = "gpt-35-turbo" ∧
      notebookConfig.deployment_or_model ≠ "" ∧
      notebookConfig.n = 1 ∧ 1 ≤ notebookConfig.n ∧
      notebookConfig.max_tokens = 150 ∧ 1 ≤ notebookConfig.max_tokens ∧
      notebookConfig.temperature = some (2 / 10 : ℚ) ∧
      (0 : ℚ) ≤ 2 / 10 ∧ (2 / 10 : ℚ) ≤ 2 ∧
      validConfig notebookConfig = true := by
  refine ⟨by decide, rfl, rfl, rfl, by decide, rfl, by decide, rfl, by decide,
    ?_, by norm_num, by norm_num, by decide⟩
  rw [show notebookConfig.temperature = some temp02 from rfl, temp02_eq]

/-- Claim C1: for every call of `complete` with non-empty messages and a
valid config, a successful result contains exactly `config.n` choices, each
whose message has role assistant. -/
theorem C1_success_returns_n_assistant_choices (env : Env) (st : OpenAIState)
    (messages : List Message) (config : GenerationConfig) (r : CompletionResult)
    (hm : messages ≠ []) (hc : validConfig config = true)
    (hr : (complete env st messages config).result = .ok r) :
    r.choices.length = config.n ∧ ∀ c ∈ r.choices, c.message.role = .assistant := by
  have hme : messages.isEmpty = false := by
    cases messages with
    | nil => exact absurd rfl hm
    | cons a l => rfl
  cases hk : env.validKey st.api_key <;> cases ho : env.outcome <;>
    simp [complete, hme, hk, hc, ho] at hr
  constructor
  · simp [← hr]
  · intro c hcm
    rw [← hr] at hcm
    simp at hcm
    obtain ⟨i, hi, hci⟩ := hcm
    rw [← hci]

/-- Claim C1 witness: the benign environment with the notebook's arguments
yields one choice whose message role is assistant. -/
theorem C1_witness :
    notebookMessages ≠ [] ∧ validConfig notebookConfig = true ∧
      (complete okEnv setupState notebookMessages notebookConfig).result =
        .ok ⟨[⟨⟨.assistant, "hello"⟩, .stop⟩]⟩ ∧
      ((CompletionResult.mk [⟨⟨.assistant, "hello"⟩, .stop⟩]).choices.length =
          notebookConfig.n ∧
        ∀ c ∈ (CompletionResult.mk [⟨⟨.assistant, "hello"⟩, .stop⟩]).choices,
          c.message.role = .assistant) :=
  ⟨by decide, by decide, rfl,
    C1_success_returns_n_assistant_choices okEnv setupState notebookMessages
      notebookConfig ⟨[⟨⟨.assistant, "hello"⟩, .stop⟩]⟩ (by decide) (by decide)
      rfl⟩

/-- Claim C4: with an invalid API key (and a non-empty conversation, so that
the request reaches the remote at all), `complete` fails with `AuthError`
and with no other kind, and `AuthError` is distinguishable from the four
other error kinds of the taxonomy. -/
theorem C4_invalid_key_fails_auth (env : Env) (st : OpenAIState)
    (messages : List Message) (config : GenerationConfig)
    (hm : messages ≠ []) (hk : env.validKey st.api_key = false) :
    (complete env st messages config).result = .error .AuthError ∧
      ErrKind.AuthError ≠ ErrKind.TransportError ∧
      ErrKind.AuthError ≠ ErrKind.InvalidRequestError ∧
      ErrKind.AuthError ≠ ErrKind.RateLimitError ∧
      ErrKind.AuthError ≠ ErrKind.ServerError := by
  have hme : messages.isEmpty = false := by
    cases messages with
    | nil => exact absurd rfl hm
    | cons a l => rfl
  exact ⟨by simp [complete, hme, hk], by decide, by decide, by decide, by decide⟩

/-- Claim C4 witness: the key-rejecting environment with the notebook's
arguments fails with `AuthError`. -/
theorem C4_witness :
    notebookMessages ≠ [] ∧ badKeyEnv.validKey setupState.api_key = false ∧
      ((complete badKeyEnv setupState notebookMessages notebookConfig).result =
          .error .AuthError ∧
        ErrKind.AuthError ≠ ErrKind.TransportError ∧
        ErrKind.AuthError ≠ ErrKind.InvalidRequestError ∧
        ErrKind.AuthError ≠ ErrKind.RateLimitError ∧
        ErrKind.AuthError ≠ ErrKind.ServerError) :=
  ⟨by decide, rfl,
    C4_invalid_key_fails_auth badKeyEnv setupState notebookMessages
      notebookConfig (by decide) rfl⟩

/-- Claim C5: with `stream = false`, an invocation of `complete` makes at
most one outbound network call — exactly one when `messages` is non-empty —
and never a second (no retry). -/
theorem C5_exactly_one_network_call (env : Env) (st : OpenAIState)
    (messages : List Message) (config : GenerationConfig)
    (_hs : config.stream = false) :
    (complete env st messages config).networkCalls ≤ 1 ∧
      (messages ≠ [] → (complete env st messages config).networkCalls = 1) := by
  cases messages with
  | nil => exact ⟨by simp [complete], fun hm => absurd rfl hm⟩
  | cons a l =>
    have hme : (a :: l).isEmpty = false := rfl
    cases hk : env.validKey st.api_key <;> cases hc : validConfig config <;>
      cases ho : env.outcome <;>
      simp [complete, hme, hk, hc, ho]

/-- Claim C5 witness: the notebook call in the benign environment makes
exactly one network call. -/
theorem C5_witness :
    notebookConfig.stream = false ∧
      ((complete okEnv setupState notebookMessages notebookConfig).networkCalls ≤ 1 ∧
        (notebookMessages ≠ [] →
          (complete okEnv setupState notebookMessages notebookConfig).networkCalls = 1)) :=
  ⟨rfl, C5_exactly_one_network_call okEnv setupState notebookMessages
    notebookConfig rfl⟩

/-- Claim C7: for identical inputs and environment, concatenating all
streamed content increments of choice `i` under `stream = true` yields
exactly the `content` field of choice `i` of the result under
`stream = false`. -/
theorem C7_stream_concat_eq_nonstream (env : Env) (st : OpenAIState)
    (messages : List Message) (config : GenerationConfig)
    (scs : List StreamChoice) (res : CompletionResult) (i : Nat)
    (hstr : completeStream env st messages { config with stream := true } = .ok scs)
    (hres : (complete env st messages { config with stream := false }).result = .ok res) :
    (scs[i]?).map (fun sc => concatIncrements sc.increments) =
      (res.choices[i]?).map (fun c => c.message.content) := by
  cases hme : messages.isEmpty <;> cases hk : env.validKey st.api_key <;>
    cases hc : validConfig config <;> cases ho : env.outcome <;>
    simp [complete, completeStream, validConfig_set_stream, hme, hk, hc, ho]
      at hstr hres
  rw [← hstr, ← hres]
  simp only [List.getElem?_map]
  by_cases hi : i < config.n
  · rw [List.getElem?_range hi]
    simp only [Option.map_some', Option.some.injEq]
    show concatIncrements (List.map (fun l => String.mk l)
        (splitBySizes (env.chunkSizes i) (env.oracle i).data)) = env.oracle i
    rw [concatIncrements_map_mk, splitBySizes_flatten, mk_data_eq]
  · have h1 : (List.range config.n)[i]? = none :=
      List.getElem?_eq_none (by simpa using Nat.le_of_not_lt hi)
    rw [h1]
    rfl

/-- Claim C7 witness: in the benign environment, streaming the notebook call
delivers "he", "ll", "o", whose concatenation is the non-streaming content
"hello". -/
theorem C7_witness :
    completeStream okEnv setupState notebookMessages
        { notebookConfig with stream := true } =
      .ok [⟨["he", "ll", "o"], .stop⟩] ∧
      (complete okEnv setupState notebookMessages
          { notebookConfig with stream := false }).result =
        .ok ⟨[⟨⟨.assistant, "hello"⟩, .stop⟩]⟩ ∧
      ([(⟨["he", "ll", "o"], .stop⟩ : StreamChoice)][0]?).map
          (fun sc => concatIncrements sc.increments) =
        ((CompletionResult.mk [⟨⟨.assistant, "hello"⟩, .stop⟩]).choices[0]?).map
          (fun c => c.message.content) :=
  ⟨rfl, rfl,
    C7_stream_concat_eq_nonstream okEnv setupState notebookMessages
      notebookConfig [⟨["he", "ll", "o"], .stop⟩]
      ⟨[⟨⟨.assistant, "hello"⟩, .stop⟩]⟩ 0 rfl rfl⟩

/-- Claim C8: if the call fails with any exception, the request cell prints
only the error message — no choice content is emitted before or after. -/
theorem C8_error_prints_only_message (env : Env) (st : OpenAIState) (e : ErrKind)
    (he : (complete env st notebookMessages notebookConfig).result = .error e) :
    (runRequestCell env st).lines = [errorMessage e] := by
  unfold runRequestCell
  rcases h : complete env st notebookMessages notebookConfig with ⟨r, k, st1⟩
  rw [h] at he
  cases r with
  | ok r0 => simp at he
  | error e0 =>
    simp at he
    subst he
    rfl

/-- Claim C8 witness: with every key rejected, the cell prints exactly the
auth-error message. -/
theorem C8_witness :
    (complete badKeyEnv setupState notebookMessages notebookConfig).result =
        .error .AuthError ∧
      (runRequestCell badKeyEnv setupState).lines = [errorMessage .AuthError] :=
  ⟨rfl, C8_error_prints_only_message badKeyEnv setupState .AuthError rfl⟩

end AICamp
